import Mathlib

/-!
Verification development for the NLP microservice
(src/server/nlp_microservice.py).

The service is a FastAPI application: each endpoint handler wraps one
external model or library call in a try/except boundary.  We embed each
handler as a pure Lean function.  The opaque external calls (Hugging Face
pipelines, spaCy, YAKE, whisper, pandas, CLIP, Wav2Vec2, pytesseract,
easyocr, soundfile) are passed in as oracle parameters of type
`Except String _` (the `error` case models a raised Python exception whose
`str(e)` is the carried message).  Side effects relevant to the
specification — temporary-file creation/removal and model
construction/invocation — are recorded in an explicit event trace.
-/

namespace NlpMicroservice

/-- A JSON-like value, the payloads handlers return. Numbers are modelled
as rationals. -/
inductive JsonV where
  | null
  | boolV (b : Bool)
  | num (q : ℚ)
  | str (s : String)
  | arr (l : List JsonV)
  | obj (fields : List (String × JsonV))

/-- A Python handler return value: either a bare dict (`body`) or a tuple
`(dict, statusCode)` as written on the error paths of the source
(for example line 96: `return ..., 500`). -/
inductive PyReturn where
  | body (b : JsonV)
  | withStatus (b : JsonV) (code : Nat)

/-- The wire-level HTTP response. -/
structure HttpResponse where
  status : Nat
  body : JsonV

/-- FastAPI encoding of a handler return value.  FastAPI wraps a plain
return value in a JSONResponse with default status 200; unlike Flask it
does not interpret a tuple as (body, status): the tuple is JSON-encoded
as a two-element array and the default 200 status is kept.  The spec
design notes record exactly this: the tuple return is treated as JSON
body and the status is ignored by the serving framework. -/
def fastapiEncode : PyReturn → HttpResponse
  | .body b => ⟨200, b⟩
  | .withStatus b code => ⟨200, .arr [b, .num code]⟩

/-- The error envelope dict built on every except path. -/
def errEnvelope (msg : String) : JsonV := .obj [("error", .str msg)]

/-- Observable side effects of a handler, in program order. -/
inductive Event where
  | tmpCreate (suffix : String)
  | tmpRemove
  | modelInit (name : String)
  | modelCall (name : String)
  | summarizerCall (maxLength minLength : Nat) (doSample : Bool)
  deriving DecidableEq

/-- The JSON request body for the text endpoints. -/
structure TextRequest where
  text : String
  type : Option String := none
  context : Option String := none

/-- The JSON request body for the /embed endpoint. -/
structure EmbedRequest where
  texts : List String

/-- Last index of a character in a list, if present. -/
def lastIdxOf (c : Char) : List Char → Option Nat
  | [] => none
  | x :: xs =>
    match lastIdxOf c xs with
    | some i => some (i + 1)
    | none => if x = c then some 0 else none

/-- The extension component of CPython `os.path.splitext` (posix, sep `/`):
the suffix from the last dot, provided that dot lies after the last path
separator and the basename up to it is not made of dots only. -/
def splitextExt (p : String) : String :=
  let cs := p.toList
  let sepIdx : Int := match lastIdxOf '/' cs with | some i => (i : Int) | none => -1
  let dotIdx : Int := match lastIdxOf '.' cs with | some i => (i : Int) | none => -1
  if sepIdx < dotIdx then
    let dotN := dotIdx.toNat
    let startN := (sepIdx + 1).toNat
    if ((cs.drop startN).take (dotN - startN)).any (fun ch => ch ≠ '.') then
      String.mk (cs.drop dotN)
    else ""
  else ""

/-- ASCII lowercase of one character, as Python str.lower acts on the
ASCII extension strings relevant here. -/
def asciiLowerChar (c : Char) : Char :=
  if 'A' ≤ c ∧ c ≤ 'Z' then Char.ofNat (c.toNat + 32) else c

/-- Python str.lower restricted to ASCII, applied characterwise. -/
def pyLower (s : String) : String := String.mk (s.toList.map asciiLowerChar)

/-- Handler for POST /ner (lines 88-96).  The oracle is the
`ner_pipeline` call on the request text. -/
def ner (nerPipeline : String → Except String JsonV) (req : TextRequest) :
    PyReturn × List Event :=
  match nerPipeline req.text with
  | .ok result => (.body (.obj [("entities", result)]), [.modelCall "ner_pipeline"])
  | .error e => (.withStatus (errEnvelope e) 500, [.modelCall "ner_pipeline"])

/-- Handler for POST /summarize (lines 108-122).  `extractKeywords` models
`kw_extractor.extract_keywords` (ranked keyword/score pairs);
`summarizerModel` models the generative `summarizer` pipeline applied to
(text, maxLength, minLength, doSample). -/
def summarize (extractKeywords : String → Except String (List (String × ℚ)))
    (summarizerModel : String → Nat → Nat → Bool → Except String String)
    (req : TextRequest) : PyReturn × List Event :=
  if req.type = some "extractive" then
    match extractKeywords req.text with
    | .ok keywords =>
        (.body (.obj [("summary",
            .str (String.intercalate " " (keywords.map Prod.fst)))]),
         [.modelCall "kw_extractor"])
    | .error e => (.withStatus (errEnvelope e) 500, [.modelCall "kw_extractor"])
  else
    match summarizerModel req.text 130 30 false with
    | .ok summaryText =>
        (.body (.obj [("summary", .str summaryText)]),
         [.summarizerCall 130 30 false])
    | .error e =>
        (.withStatus (errEnvelope e) 500, [.summarizerCall 130 30 false])

/-- Handler for POST /embed (lines 200-210).  `embedder` is the
module-level handle set to `none` when the startup load raised
(lines 51-55); `encode` models `embedder.encode`. -/
def embed (embedder : Option Unit)
    (encode : List String → Except String (List (List ℚ)))
    (req : EmbedRequest) : PyReturn × List Event :=
  match embedder with
  | none => (.withStatus (errEnvelope "Embedding model not loaded") 500, [])
  | some _ =>
    match encode req.texts with
    | .ok embeddings =>
        (.body (.obj [("embeddings",
            .arr (embeddings.map (fun v => .arr (v.map JsonV.num))))]),
         [.modelCall "embedder.encode"])
    | .error e => (.withStatus (errEnvelope e) 500, [.modelCall "embedder.encode"])

/-- A spaCy entity span as used by /entity-linking: surface text,
knowledge-base id (empty when unlinked) and label. -/
structure SpacyEnt where
  text : String
  kb_id : String
  label : String

/-- One entry of the /entity-linking response (lines 188-193): confidence
is `float(kb_id)` when the id is non-empty, else 1.0. -/
def entRecord (pyFloat : String → Option ℚ) (ent : SpacyEnt) : JsonV :=
  .obj [("mention", .str ent.text), ("entity_id", .str ent.kb_id),
        ("entity_label", .str ent.label),
        ("confidence",
          .num (if ent.kb_id = "" then 1 else (pyFloat ent.kb_id).getD 0))]

/-- The entity loop of /entity-linking (lines 185-193).  `pyFloat` models
the Python `float` coercion on strings: `none` means it raises
ValueError, which aborts the whole loop. -/
def buildEntities (pyFloat : String → Option ℚ) :
    List SpacyEnt → Except String (List JsonV)
  | [] => .ok []
  | ent :: rest =>
    let conf : Except String ℚ :=
      if ent.kb_id = "" then .ok 1
      else
        match pyFloat ent.kb_id with
        | some q => .ok q
        | none =>
            .error ("could not convert string to float: " ++ ent.kb_id)
    match conf with
    | .error e => .error e
    | .ok c =>
      match buildEntities pyFloat rest with
      | .error e => .error e
      | .ok l =>
          .ok (.obj [("mention", .str ent.text), ("entity_id", .str ent.kb_id),
                ("entity_label", .str ent.label), ("confidence", .num c)] :: l)

/-- Handler for POST /entity-linking (lines 180-198).  `docEnts` models
`nlp_spacy(req.text).ents`. -/
def entity_linking (docEnts : String → Except String (List SpacyEnt))
    (pyFloat : String → Option ℚ) (req : TextRequest) : PyReturn × List Event :=
  match docEnts req.text with
  | .error e => (.withStatus (errEnvelope e) 500, [.modelCall "nlp_spacy"])
  | .ok ents =>
    match buildEntities pyFloat ents with
    | .ok l => (.body (.obj [("entities", .arr l)]), [.modelCall "nlp_spacy"])
    | .error e => (.withStatus (errEnvelope e) 500, [.modelCall "nlp_spacy"])

/-- Handler for POST /ocr (lines 224-242).  `imageOpen` models
`Image.open`; `tesseract` models `pytesseract.image_to_string` on the
opened image; `easyocrRead` models constructing an `easyocr.Reader` and
calling `readtext`, yielding the recognized strings. -/
def ocr_image (imageOpen : Except String Unit)
    (tesseract : Except String String)
    (easyocrRead : Except String (List String)) : PyReturn × List Event :=
  match imageOpen with
  | .error e => (.withStatus (errEnvelope e) 500, [])
  | .ok _ =>
    match tesseract with
    | .ok text =>
        (.body (.obj [("text", .str text),
            ("metadata", .obj [("ocr_method", .str "pytesseract")])]),
         [.modelCall "pytesseract"])
    | .error _ =>
      match easyocrRead with
      | .ok items =>
          (.body (.obj [("text", .str (String.intercalate " " items)),
              ("metadata", .obj [("ocr_method", .str "easyocr")])]),
           [.modelCall "pytesseract", .modelInit "easyocr", .modelCall "easyocr"])
      | .error e =>
          (.withStatus (errEnvelope e) 500,
           [.modelCall "pytesseract", .modelInit "easyocr", .modelCall "easyocr"])

/-- The whisper transcription result: text plus the optionally reported
language. -/
structure TransResult where
  text : String
  language : Option String

/-- Handler for POST /transcribe (lines 244-257).  The request body is
staged to a temp file (tmpCreate); then `whisper.load_model("base")` runs
inside the handler (modelInit, line 251); `model.transcribe` is the
oracle; `os.remove` (tmpRemove, line 253) runs only after a successful
transcription. -/
def transcribe_audio (loadModel : Except String Unit)
    (whisperTranscribe : Except String TransResult) : PyReturn × List Event :=
  match loadModel with
  | .error e =>
      (.withStatus (errEnvelope e) 500, [.tmpCreate ".wav", .modelInit "whisper-base"])
  | .ok _ =>
    match whisperTranscribe with
    | .error e =>
        (.withStatus (errEnvelope e) 500,
         [.tmpCreate ".wav", .modelInit "whisper-base", .modelCall "whisper.transcribe"])
    | .ok r =>
        (.body (.obj [("text", .str r.text),
            ("metadata", .obj [("language", .str (r.language.getD "en"))])]),
         [.tmpCreate ".wav", .modelInit "whisper-base", .modelCall "whisper.transcribe",
          .tmpRemove])

/-- A parsed table as far as the handler observes it: columns, row count,
and the `to_csv(index=False)` rendering. -/
structure DataFrame where
  columns : List String
  nrows : Nat
  csvText : String

/-- The success body of /table (line 276). -/
def tableSuccessBody (df : DataFrame) : JsonV :=
  .obj [("text", .str df.csvText),
        ("metadata", .obj [("columns", .arr (df.columns.map JsonV.str)),
                           ("rows", .num df.nrows)])]

/-- Handler for POST /table (lines 259-279).  The filename hint comes from
the x-file-name header with default "table.csv" (line 263); the extension
is `os.path.splitext(name)[-1].lower()`; the payload is staged to a temp
file with that suffix before dispatch; `os.remove` (line 274) runs only
after a successful parse; an unsupported extension raises ValueError,
caught by the handler boundary. -/
def parse_table (fileNameHeader : Option String)
    (readCsv : Except String DataFrame)
    (readExcel : Except String DataFrame) : PyReturn × List Event :=
  let file_name := fileNameHeader.getD "table.csv"
  let ext := pyLower (splitextExt file_name)
  if ext = ".csv" then
    match readCsv with
    | .ok df =>
        (.body (tableSuccessBody df),
         [.tmpCreate ext, .modelCall "pd.read_csv", .tmpRemove])
    | .error e =>
        (.withStatus (errEnvelope e) 500, [.tmpCreate ext, .modelCall "pd.read_csv"])
  else if ext = ".xls" ∨ ext = ".xlsx" then
    match readExcel with
    | .ok df =>
        (.body (tableSuccessBody df),
         [.tmpCreate ext, .modelCall "pd.read_excel", .tmpRemove])
    | .error e =>
        (.withStatus (errEnvelope e) 500, [.tmpCreate ext, .modelCall "pd.read_excel"])
  else
    (.withStatus (errEnvelope "Unsupported table file type") 500, [.tmpCreate ext])

/-- Squared L2 norm of a rational feature vector; `np.linalg.norm v`
is its square root. -/
def normSqRat (v : List ℚ) : ℚ := (v.map (fun x => x * x)).sum

/-- Outcome of the normalization step (lines 292-294 and 319-321):
`scaledByNorm v` denotes the vector v divided componentwise by its
(nonzero, possibly irrational) L2 norm; `unscaled v` is v returned as is.
Since the norm is nonnegative, the source guard `norm > 0` holds exactly
when the squared norm is positive, which keeps the embedding computable. -/
inductive NormOutcome where
  | scaledByNorm (v : List ℚ)
  | unscaled (v : List ℚ)
  deriving DecidableEq

/-- The shared normalization step of /image-embed and /audio-embed. -/
def normalizeFeatures (v : List ℚ) : NormOutcome :=
  if 0 < normSqRat v then .scaledByNorm v else .unscaled v

/-- Result of the two embedding-by-file handlers: the startup-failure
guard, the except path, or a successful (possibly normalized) embedding. -/
inductive EmbedResult where
  | notLoaded (b : JsonV) (code : Nat)
  | errorResult (b : JsonV) (code : Nat)
  | embedding (o : NormOutcome)

/-- Handler for POST /image-embed (lines 281-298).  `cm`/`cp` are the
clip_model/clip_processor handles (both set to none when the startup load
raised, lines 58-64); `getImageFeatures` models the CLIP feature
extraction on the decoded image. -/
def image_embed (cm cp : Option Unit) (imageOpen : Except String Unit)
    (getImageFeatures : Except String (List ℚ)) : EmbedResult × List Event :=
  if cm = none ∨ cp = none then
    (.notLoaded (errEnvelope "CLIP model not loaded") 500, [])
  else
    match imageOpen with
    | .error e => (.errorResult (errEnvelope e) 500, [])
    | .ok _ =>
      match getImageFeatures with
      | .error e =>
          (.errorResult (errEnvelope e) 500, [.modelCall "clip.get_image_features"])
      | .ok v =>
          (.embedding (normalizeFeatures v), [.modelCall "clip.get_image_features"])

/-- Audio as read by soundfile: a mono sample list or a frames-by-channels
matrix. -/
inductive Speech where
  | mono (samples : List ℚ)
  | multi (frames : List (List ℚ))

/-- Arithmetic mean of a rational list (numpy mean over the channel
axis). -/
def ratMean (l : List ℚ) : ℚ := l.sum / l.length

/-- The mono conversion of lines 312-313: multi-channel audio is averaged
per frame. -/
def toMono : Speech → List ℚ
  | .mono s => s
  | .multi frames => frames.map ratMean

/-- Handler for POST /audio-embed (lines 300-325).  `wm`/`wp` are the
wav2vec2 model/processor handles (both none when the startup load raised,
lines 67-73); `sfRead` models `sf.read` on the staged temp file — note
the source removes the temp file right after a successful read
(line 311), before the model call; `w2vFeatures` models the Wav2Vec2
forward pass plus mean pooling on the mono signal. -/
def audio_embed (wm wp : Option Unit) (sfRead : Except String Speech)
    (w2vFeatures : List ℚ → Except String (List ℚ)) : EmbedResult × List Event :=
  if wm = none ∨ wp = none then
    (.notLoaded (errEnvelope "Wav2Vec2 model not loaded") 500, [])
  else
    match sfRead with
    | .error e => (.errorResult (errEnvelope e) 500, [.tmpCreate ".wav"])
    | .ok speech =>
      match w2vFeatures (toMono speech) with
      | .error e =>
          (.errorResult (errEnvelope e) 500,
           [.tmpCreate ".wav", .tmpRemove, .modelCall "wav2vec2"])
      | .ok v =>
          (.embedding (normalizeFeatures v),
           [.tmpCreate ".wav", .tmpRemove, .modelCall "wav2vec2"])

end NlpMicroservice

namespace NlpMicroservice

/-- Helper for C6: the squared L2 norm is nonnegative. -/
theorem normSqRat_nonneg (v : List ℚ) : 0 ≤ normSqRat v := by
  induction v with
  | nil => simp [normSqRat]
  | cons x xs ih =>
    simp only [normSqRat, List.map_cons, List.sum_cons]
    exact add_nonneg (mul_self_nonneg x) ih

/-- Helper for C6: a vector with zero squared norm is the zero vector. -/
theorem eq_zero_of_normSqRat_eq_zero (v : List ℚ) (h : normSqRat v = 0) :
    ∀ x ∈ v, x = 0 := by
  induction v with
  | nil => simp
  | cons y ys ih =>
    simp only [normSqRat, List.map_cons, List.sum_cons] at h
    have h1 : 0 ≤ y * y := mul_self_nonneg y
    have h2 : 0 ≤ normSqRat ys := normSqRat_nonneg ys
    have hyy : y * y = 0 := by
      simp only [normSqRat] at h2
      linarith
    have hys : normSqRat ys = 0 := by
      simp only [normSqRat] at h2 ⊢
      linarith
    intro x hx
    rcases List.mem_cons.mp hx with rfl | hmem
    · exact mul_self_eq_zero.mp hyy
    · exact ih hys x hmem

end NlpMicroservice

namespace NlpMicroservice

/-- C1: the claim requires every error result to reach the wire with a
non-2xx status and a bare error-envelope body.  The code instead returns
the Python tuple (envelope, 500), which FastAPI JSON-encodes as a
two-element array under its default 200 status: at a /ner request whose
pipeline raises, the HTTP response has success status 200 and an array
body, refuting the claim. -/
theorem C1_error_status_bug :
    (∀ b code, (fastapiEncode (.withStatus b code)).status = 200) ∧
    fastapiEncode (ner (fun _ => .error "boom") ⟨"tag this text", none, none⟩).1 =
      ⟨200, .arr [errEnvelope "boom", .num 500]⟩ :=
  ⟨fun _ _ => rfl, rfl⟩

/-- C2: the claim requires the staged temporary file to be deleted on
every exit path.  The code calls os.remove only after the library call
succeeds: when whisper transcription raises, and when /table hits an
unsupported extension, the file is created but never removed. -/
theorem C2_tmpfile_leak :
    (Event.tmpCreate ".wav" ∈ (transcribe_audio (.ok ()) (.error "decode failed")).2 ∧
      Event.tmpRemove ∉ (transcribe_audio (.ok ()) (.error "decode failed")).2) ∧
    (Event.tmpCreate ".txt" ∈
        (parse_table (some "notes.txt") (.ok ⟨["a"], 1, "a"⟩) (.ok ⟨["a"], 1, "a"⟩)).2 ∧
      Event.tmpRemove ∉
        (parse_table (some "notes.txt") (.ok ⟨["a"], 1, "a"⟩) (.ok ⟨["a"], 1, "a"⟩)).2) := by
  decide

/-- C3 counterexample: the claim says no request handler ever initializes
a model during request handling, but the /transcribe handler runs
whisper.load_model("base") on every request, here on a successfully
transcribed one. -/
theorem C3_counterexample :
    Event.modelInit "whisper-base" ∈
      (transcribe_audio (.ok ()) (.ok ⟨"hello", some "en"⟩)).2 := by
  decide

/-- C10: a /table request without the x-file-name header defaults the
filename hint to "table.csv", so the handler always takes the CSV branch:
the CSV parser is invoked and its outcome alone determines the response —
the request is never rejected as an unsupported file type. -/
theorem C10_default_filename (rc re : Except String DataFrame) :
    parse_table none rc re =
      (match rc with
       | .ok df => (.body (tableSuccessBody df),
           [.tmpCreate ".csv", .modelCall "pd.read_csv", .tmpRemove])
       | .error e => ((.withStatus (errEnvelope e) 500 : PyReturn),
           [.tmpCreate ".csv", .modelCall "pd.read_csv"])) := by
  cases rc <;> rfl

/-- C6: in the normalization step shared by /image-embed and /audio-embed
(norm = the real square root of the squared L2 norm, as computed by
np.linalg.norm): when the norm is strictly positive the feature vector is
scaled by the reciprocal norm; when the norm is zero the vector is
returned unnormalized and is the all-zero vector; and the scaling branch
is taken only with a nonzero divisor, so no division by zero occurs. -/
theorem C6_normalization (v : List ℚ) :
    (0 < Real.sqrt (normSqRat v : ℝ) → normalizeFeatures v = .scaledByNorm v) ∧
    (Real.sqrt (normSqRat v : ℝ) = 0 →
      normalizeFeatures v = .unscaled v ∧ ∀ x ∈ v, x = 0) ∧
    (normalizeFeatures v = .scaledByNorm v → Real.sqrt (normSqRat v : ℝ) ≠ 0) := by
  refine ⟨?_, ?_, ?_⟩
  · intro h
    have hR : (0 : ℝ) < (normSqRat v : ℝ) := Real.sqrt_pos.mp h
    have hq : 0 < normSqRat v := by exact_mod_cast hR
    simp [normalizeFeatures, hq]
  · intro h
    have hle : (normSqRat v : ℝ) ≤ 0 := Real.sqrt_eq_zero'.mp h
    have hq : normSqRat v = 0 :=
      le_antisymm (by exact_mod_cast hle) (normSqRat_nonneg v)
    refine ⟨?_, eq_zero_of_normSqRat_eq_zero v hq⟩
    simp [normalizeFeatures, hq]
  · intro h hz
    have hle : (normSqRat v : ℝ) ≤ 0 := Real.sqrt_eq_zero'.mp hz
    have hq : normSqRat v = 0 :=
      le_antisymm (by exact_mod_cast hle) (normSqRat_nonneg v)
    have : normalizeFeatures v = .unscaled v := by simp [normalizeFeatures, hq]
    rw [this] at h
    exact NormOutcome.noConfusion h

/-- Witness for C6 at concrete feature vectors: [3, 4] has norm 5 and is
scaled; [0] has norm 0 and is returned unscaled as the zero vector. -/
theorem C6_witness :
    normalizeFeatures [(3 : ℚ), 4] = .scaledByNorm [3, 4] ∧
    (normalizeFeatures [(0 : ℚ)] = .unscaled [0] ∧ ∀ x ∈ ([0] : List ℚ), x = 0) ∧
    Real.sqrt (normSqRat [(3 : ℚ), 4] : ℝ) ≠ 0 := by
  have h25 : normSqRat [(3 : ℚ), 4] = 25 := by norm_num [normSqRat]
  have hpos : (0 : ℝ) < Real.sqrt (normSqRat [(3 : ℚ), 4] : ℝ) := by
    rw [h25, Real.sqrt_pos]
    norm_num
  have h0 : Real.sqrt (normSqRat [(0 : ℚ)] : ℝ) = 0 := by
    have : normSqRat [(0 : ℚ)] = 0 := by norm_num [normSqRat]
    rw [this]
    simp
  exact ⟨(C6_normalization [3, 4]).1 hpos, (C6_normalization [0]).2.1 h0,
    (C6_normalization [3, 4]).2.2 ((C6_normalization [3, 4]).1 hpos)⟩

end NlpMicroservice

namespace NlpMicroservice

/-- C4: when a capability handle failed to load at startup (embedder none;
clip model or processor none; wav2vec2 model or processor none), every
request to its endpoint returns the error envelope naming the capability
as not loaded, with an empty event trace — the missing handle is never
dereferenced and no library call is made. -/
theorem C4_unloaded_handles
    (encode : List String → Except String (List (List ℚ))) (req : EmbedRequest)
    (cm cp : Option Unit) (imageOpen : Except String Unit)
    (gif : Except String (List ℚ))
    (wm wp : Option Unit) (sfRead : Except String Speech)
    (w2v : List ℚ → Except String (List ℚ))
    (hclip : cm = none ∨ cp = none) (hwav : wm = none ∨ wp = none) :
    embed none encode req =
      (.withStatus (errEnvelope "Embedding model not loaded") 500, []) ∧
    image_embed cm cp imageOpen gif =
      (.notLoaded (errEnvelope "CLIP model not loaded") 500, []) ∧
    audio_embed wm wp sfRead w2v =
      (.notLoaded (errEnvelope "Wav2Vec2 model not loaded") 500, []) := by
  refine ⟨rfl, ?_, ?_⟩
  · unfold image_embed
    rw [if_pos hclip]
  · unfold audio_embed
    rw [if_pos hwav]

/-- Witness for C4 with all three handles in the failed-load state. -/
theorem C4_witness :
    embed none (fun _ => .ok []) ⟨["hi"]⟩ =
      (.withStatus (errEnvelope "Embedding model not loaded") 500, []) ∧
    image_embed none none (.ok ()) (.ok [1]) =
      (.notLoaded (errEnvelope "CLIP model not loaded") 500, []) ∧
    audio_embed none none (.ok (.mono [1])) (fun _ => .ok [1]) =
      (.notLoaded (errEnvelope "Wav2Vec2 model not loaded") 500, []) :=
  C4_unloaded_handles (fun _ => .ok []) ⟨["hi"]⟩ none none (.ok ()) (.ok [1])
    none none (.ok (.mono [1])) (fun _ => .ok [1]) (Or.inl rfl) (Or.inl rfl)

/-- C5: for an image the handler decodes, if pytesseract succeeds the
response is a success carrying its text with ocr_method "pytesseract";
if pytesseract raises, the easyocr engine is invoked and the response is
still a success, carrying the space-joined easyocr strings with
ocr_method "easyocr". -/
theorem C5_ocr_fallback (tess : Except String String)
    (easy : Except String (List String)) :
    (∀ t, tess = .ok t →
      ocr_image (.ok ()) tess easy =
        (.body (.obj [("text", .str t),
            ("metadata", .obj [("ocr_method", .str "pytesseract")])]),
         [.modelCall "pytesseract"])) ∧
    (∀ e items, tess = .error e → easy = .ok items →
      ocr_image (.ok ()) tess easy =
        (.body (.obj [("text", .str (String.intercalate " " items)),
            ("metadata", .obj [("ocr_method", .str "easyocr")])]),
         [.modelCall "pytesseract", .modelInit "easyocr", .modelCall "easyocr"])) := by
  constructor
  · rintro t rfl
    rfl
  · rintro e items rfl rfl
    rfl

/-- Witness for C5: one request answered by pytesseract, one answered by
the easyocr fallback after pytesseract raised. -/
theorem C5_witness :
    ocr_image (.ok ()) (.ok "hello") (.error "x") =
      (.body (.obj [("text", .str "hello"),
          ("metadata", .obj [("ocr_method", .str "pytesseract")])]),
       [.modelCall "pytesseract"]) ∧
    ocr_image (.ok ()) (.error "boom") (.ok ["lorem", "ipsum"]) =
      (.body (.obj [("text", .str "lorem ipsum"),
          ("metadata", .obj [("ocr_method", .str "easyocr")])]),
       [.modelCall "pytesseract", .modelInit "easyocr", .modelCall "easyocr"]) :=
  ⟨(C5_ocr_fallback (.ok "hello") (.error "x")).1 "hello" rfl,
   (C5_ocr_fallback (.error "boom") (.ok ["lorem", "ipsum"])).2 "boom"
     ["lorem", "ipsum"] rfl rfl⟩

/-- C7: when type is "extractive" the /summarize response is the
space-joined keyword list in the extractor ranking order and the
generative summarizer is never invoked; for any other type value
(including absent) the generative summarizer is invoked exactly once with
max_length 130, min_length 30, do_sample false, and its text is the
summary. -/
theorem C7_summarize_dispatch
    (kw : String → Except String (List (String × ℚ)))
    (gen : String → Nat → Nat → Bool → Except String String) (req : TextRequest) :
    (req.type = some "extractive" →
      summarize kw gen req =
        ((match kw req.text with
          | .ok keywords => .body (.obj [("summary",
              .str (String.intercalate " " (keywords.map Prod.fst)))])
          | .error e => .withStatus (errEnvelope e) 500),
         [.modelCall "kw_extractor"]) ∧
      ∀ a b c, Event.summarizerCall a b c ∉ (summarize kw gen req).2) ∧
    (req.type ≠ some "extractive" →
      summarize kw gen req =
        ((match gen req.text 130 30 false with
          | .ok s => .body (.obj [("summary", .str s)])
          | .error e => .withStatus (errEnvelope e) 500),
         [.summarizerCall 130 30 false])) := by
  constructor
  · intro h
    constructor
    · simp only [summarize, if_pos h]
      cases kw req.text <;> rfl
    · intro a b c
      simp only [summarize, if_pos h]
      cases kw req.text <;> simp
  · intro h
    simp only [summarize, if_neg h]
    cases gen req.text 130 30 false <;> rfl

/-- Witness for C7: an extractive request joining two ranked keywords
without touching the generative model, and a default request answered by
the generative summarizer called with bounds 130/30. -/
theorem C7_witness :
    summarize (fun _ => .ok [("alpha", 1), ("beta", 2)]) (fun _ _ _ _ => .ok "gen")
        ⟨"some text", some "extractive", none⟩ =
      (.body (.obj [("summary", .str "alpha beta")]), [.modelCall "kw_extractor"]) ∧
    summarize (fun _ => .ok [("alpha", 1)]) (fun _ _ _ _ => .ok "generated summary")
        ⟨"some text", none, none⟩ =
      (.body (.obj [("summary", .str "generated summary")]),
       [.summarizerCall 130 30 false]) :=
  ⟨((C7_summarize_dispatch (fun _ => .ok [("alpha", 1), ("beta", 2)])
      (fun _ _ _ _ => .ok "gen") ⟨"some text", some "extractive", none⟩).1 rfl).1,
   (C7_summarize_dispatch (fun _ => .ok [("alpha", 1)])
      (fun _ _ _ _ => .ok "generated summary") ⟨"some text", none, none⟩).2
     (by decide)⟩

/-- C8: a /table request whose filename hint yields an extension other
than .csv, .xls or .xlsx returns the error envelope for the ValueError
raised and caught inside the handler; the handler is a total function,
so the error never propagates. -/
theorem C8_unsupported_extension (hdr : Option String)
    (rc re : Except String DataFrame)
    (h1 : pyLower (splitextExt (hdr.getD "table.csv")) ≠ ".csv")
    (h2 : pyLower (splitextExt (hdr.getD "table.csv")) ≠ ".xls")
    (h3 : pyLower (splitextExt (hdr.getD "table.csv")) ≠ ".xlsx") :
    parse_table hdr rc re =
      (.withStatus (errEnvelope "Unsupported table file type") 500,
       [.tmpCreate (pyLower (splitextExt (hdr.getD "table.csv")))]) := by
  simp only [parse_table]
  rw [if_neg h1, if_neg (not_or.mpr ⟨h2, h3⟩)]

/-- Witness for C8 at the unsupported filename notes.txt. -/
theorem C8_witness :
    parse_table (some "notes.txt") (.error "x") (.ok ⟨[], 0, ""⟩) =
      (.withStatus (errEnvelope "Unsupported table file type") 500,
       [.tmpCreate ".txt"]) :=
  C8_unsupported_extension (some "notes.txt") (.error "x") (.ok ⟨[], 0, ""⟩)
    (by decide) (by decide) (by decide)

end NlpMicroservice

namespace NlpMicroservice

/-- Helper for C9: when every linked entity id parses as a float, the
entity loop succeeds and yields one record per entity with the parsed
confidence. -/
theorem buildEntities_ok (pyFloat : String → Option ℚ) (ents : List SpacyEnt)
    (h : ∀ ent ∈ ents, ent.kb_id ≠ "" → (pyFloat ent.kb_id).isSome) :
    buildEntities pyFloat ents = .ok (ents.map (entRecord pyFloat)) := by
  induction ents with
  | nil => rfl
  | cons ent rest ih =>
    have htail : ∀ e ∈ rest, e.kb_id ≠ "" → (pyFloat e.kb_id).isSome :=
      fun e he hne => h e (List.mem_cons_of_mem _ he) hne
    simp only [buildEntities, List.map_cons]
    by_cases hid : ent.kb_id = ""
    · simp [hid, ih htail, entRecord]
    · have hsome := h ent (List.mem_cons_self _ _) hid
      cases hq : pyFloat ent.kb_id with
      | none => rw [hq] at hsome; simp at hsome
      | some q => simp [hid, hq, ih htail, entRecord]

/-- Helper for C9: a linked entity whose id does not parse as a float
makes the entity loop raise. -/
theorem buildEntities_err (pyFloat : String → Option ℚ) (ents : List SpacyEnt)
    (ent : SpacyEnt) (hmem : ent ∈ ents) (hid : ent.kb_id ≠ "")
    (hfail : pyFloat ent.kb_id = none) :
    ∃ msg, buildEntities pyFloat ents = .error msg := by
  induction ents with
  | nil => cases hmem
  | cons e rest ih =>
    rcases List.mem_cons.mp hmem with heq | hmem2
    · subst heq
      exact ⟨"could not convert string to float: " ++ ent.kb_id,
        by simp [buildEntities, hid, hfail]⟩
    · by_cases hide : e.kb_id = ""
      · obtain ⟨m, hm⟩ := ih hmem2
        exact ⟨m, by simp [buildEntities, hide, hm]⟩
      · cases hq : pyFloat e.kb_id with
        | none =>
          exact ⟨"could not convert string to float: " ++ e.kb_id,
            by simp [buildEntities, hide, hq]⟩
        | some q =>
          obtain ⟨m, hm⟩ := ih hmem2
          exact ⟨m, by simp [buildEntities, hide, hq, hm]⟩

/-- C9: in /entity-linking the confidence of a linked entity (non-empty
knowledge-base id) is the id coerced to a float (entRecord); when every
linked id parses, the response is the entity list, and when some linked
id is not numeric, the float coercion raises and the whole request
returns an error envelope instead of the entity list. -/
theorem C9_entity_linking (docEnts : String → Except String (List SpacyEnt))
    (pyFloat : String → Option ℚ) (req : TextRequest) (ents : List SpacyEnt)
    (hdoc : docEnts req.text = .ok ents) :
    ((∀ ent ∈ ents, ent.kb_id ≠ "" → (pyFloat ent.kb_id).isSome) →
      entity_linking docEnts pyFloat req =
        (.body (.obj [("entities", .arr (ents.map (entRecord pyFloat)))]),
         [.modelCall "nlp_spacy"])) ∧
    ((∃ ent ∈ ents, ent.kb_id ≠ "" ∧ pyFloat ent.kb_id = none) →
      ∃ msg, entity_linking docEnts pyFloat req =
        (.withStatus (errEnvelope msg) 500, [.modelCall "nlp_spacy"])) := by
  constructor
  · intro h
    simp only [entity_linking, hdoc, buildEntities_ok pyFloat ents h]
  · rintro ⟨ent, hmem, hid, hfail⟩
    obtain ⟨msg, hmsg⟩ := buildEntities_err pyFloat ents ent hmem hid hfail
    exact ⟨msg, by simp only [entity_linking, hdoc, hmsg]⟩

/-- Witness for C9: one request whose single entity has the numeric id
123 (confidence 123), and one whose entity id Q859 is non-numeric, so the
request returns an error envelope. -/
theorem C9_witness :
    entity_linking (fun _ => .ok [⟨"Paris", "123", "GPE"⟩])
        (fun s => if s = "123" then some 123 else none)
        ⟨"Paris is nice", none, none⟩ =
      (.body (.obj [("entities", .arr
          [.obj [("mention", .str "Paris"), ("entity_id", .str "123"),
                 ("entity_label", .str "GPE"), ("confidence", .num 123)]])]),
       [.modelCall "nlp_spacy"]) ∧
    (∃ msg, entity_linking (fun _ => .ok [⟨"Plato", "Q859", "PERSON"⟩])
        (fun _ => none) ⟨"Plato wrote", none, none⟩ =
      (.withStatus (errEnvelope msg) 500, [.modelCall "nlp_spacy"])) :=
  ⟨(C9_entity_linking (fun _ => .ok [⟨"Paris", "123", "GPE"⟩])
      (fun s => if s = "123" then some 123 else none)
      ⟨"Paris is nice", none, none⟩ [⟨"Paris", "123", "GPE"⟩] rfl).1
      (by decide),
   (C9_entity_linking (fun _ => .ok [⟨"Plato", "Q859", "PERSON"⟩])
      (fun _ => none) ⟨"Plato wrote", none, none⟩ [⟨"Plato", "Q859", "PERSON"⟩]
      rfl).2
      ⟨⟨"Plato", "Q859", "PERSON"⟩, List.mem_singleton.mpr rfl, by decide, rfl⟩⟩

/-- C3 amended: handlers backed by startup-loaded registry handles (ner,
summarize, embed, entity-linking, table, image-embed, audio-embed)
perform no model construction during request handling; however the
/transcribe handler loads the whisper model on every request, and the
/ocr handler constructs a new easyocr reader on each fallback invocation
(and none when pytesseract succeeds). -/
theorem C3_amended :
    (∀ (loadModel : Except String Unit) (tr : Except String TransResult),
      Event.modelInit "whisper-base" ∈ (transcribe_audio loadModel tr).2) ∧
    (∀ (tess : Except String String) (easy : Except String (List String))
       (e : String), tess = .error e →
      Event.modelInit "easyocr" ∈ (ocr_image (.ok ()) tess easy).2) ∧
    (∀ (tess : Except String String) (easy : Except String (List String))
       (t : String), tess = .ok t →
      ∀ n, Event.modelInit n ∉ (ocr_image (.ok ()) tess easy).2) ∧
    (∀ (np : String → Except String JsonV) (req : TextRequest) (n : String),
      Event.modelInit n ∉ (ner np req).2) ∧
    (∀ (kw : String → Except String (List (String × ℚ)))
       (gen : String → Nat → Nat → Bool → Except String String)
       (req : TextRequest) (n : String),
      Event.modelInit n ∉ (summarize kw gen req).2) ∧
    (∀ (emb : Option Unit) (enc : List String → Except String (List (List ℚ)))
       (req : EmbedRequest) (n : String),
      Event.modelInit n ∉ (embed emb enc req).2) ∧
    (∀ (de : String → Except String (List SpacyEnt)) (pf : String → Option ℚ)
       (req : TextRequest) (n : String),
      Event.modelInit n ∉ (entity_linking de pf req).2) ∧
    (∀ (hdr : Option String) (rc re : Except String DataFrame) (n : String),
      Event.modelInit n ∉ (parse_table hdr rc re).2) ∧
    (∀ (cm cp : Option Unit) (imgO : Except String Unit)
       (gif : Except String (List ℚ)) (n : String),
      Event.modelInit n ∉ (image_embed cm cp imgO gif).2) ∧
    (∀ (wm wp : Option Unit) (sfr : Except String Speech)
       (w2v : List ℚ → Except String (List ℚ)) (n : String),
      Event.modelInit n ∉ (audio_embed wm wp sfr w2v).2) := by
  refine ⟨?_, ?_, ?_, ?_, ?_, ?_, ?_, ?_, ?_, ?_⟩
  · intro lm tr
    cases lm with
    | error e => simp [transcribe_audio]
    | ok u => cases tr <;> simp [transcribe_audio]
  · rintro tess easy e rfl
    cases easy <;> simp [ocr_image]
  · rintro tess easy t rfl n
    simp [ocr_image]
  · intro np req n
    cases h : np req.text <;> simp [ner, h]
  · intro kw gen req n
    by_cases h : req.type = some "extractive"
    · simp only [summarize, if_pos h]
      cases kw req.text <;> simp
    · simp only [summarize, if_neg h]
      cases gen req.text 130 30 false <;> simp
  · intro emb enc req n
    cases emb with
    | none => simp [embed]
    | some u => cases h : enc req.texts <;> simp [embed, h]
  · intro de pf req n
    cases h : de req.text with
    | error e => simp [entity_linking, h]
    | ok ents => cases h2 : buildEntities pf ents <;> simp [entity_linking, h, h2]
  · intro hdr rc re n
    simp only [parse_table]
    split
    · cases rc <;> simp
    · split
      · cases re <;> simp
      · simp
  · intro cm cp imgO gif n
    simp only [image_embed]
    split
    · simp
    · cases imgO with
      | error e => simp
      | ok u => cases gif <;> simp
  · intro wm wp sfr w2v n
    simp only [audio_embed]
    split
    · simp
    · cases sfr with
      | error e => simp
      | ok speech => cases w2vFeat : w2v (toMono speech) <;> simp [w2vFeat]

/-- Witness for C3 amended: a successful /transcribe request still loads
whisper in-request; an /ocr request whose pytesseract call raised
constructs easyocr; an /ocr request answered by pytesseract constructs
no model. -/
theorem C3_amended_witness :
    Event.modelInit "whisper-base" ∈
      (transcribe_audio (.ok ()) (.ok ⟨"hi", none⟩)).2 ∧
    Event.modelInit "easyocr" ∈
      (ocr_image (.ok ()) (.error "fail") (.ok ["word"])).2 ∧
    Event.modelInit "easyocr" ∉ (ocr_image (.ok ()) (.ok "txt") (.error "y")).2 :=
  ⟨C3_amended.1 (.ok ()) (.ok ⟨"hi", none⟩),
   C3_amended.2.1 (.error "fail") (.ok ["word"]) "fail" rfl,
   C3_amended.2.2.1 (.ok "txt") (.error "y") "txt" rfl "easyocr"⟩

end NlpMicroservice
